import Mathlib

/-!
Verification of the microplastics particle-morphology pipeline.

This file gives a shallow embedding, over exact rationals, of the core
measurement/classification/statistics code of the repository:

* `config/config.py`       — `MORPHOLOGY_PARAMS` category ranges;
* `src/yolo_detector.py`   — `YOLODetector._calculate_morphology` (bounding-box
  measurement policy, with Python `round` quantization);
* `src/image_processing.py`— `ImageProcessor.extract_particles` (region
  measurement policy over precomputed `regionprops`);
* `src/statistical_analysis.py` — `StatisticalAnalyzer`: classification,
  aggregation into a pandas DataFrame, descriptive statistics, cross-sample
  comparison and the textual summary report.

Conventions of the embedding:
* Python floats are modelled as exact rationals (`ℚ`); `round(x, n)` is
  modelled as ideal decimal half-to-even (banker's) rounding of the rational
  value.
* External numeric library routines (numpy `pi`/`sqrt`, scipy hypothesis
  tests, pandas `std`'s square root) are parameters of the embedded
  functions: the code under verification only forwards their results.
* pandas DataFrames are modelled as a column-name list plus rows of
  association lists; a missing key in a row is NaN; column access on an
  absent column is a `KeyError`, modelled with `Except`.
-/

/-- Cell values of the modelled DataFrame: numbers, strings, or tuples
(Python tuples such as `centroid`/`bbox` are stored as opaque objects). -/
inductive Val where
  | num (q : ℚ)
  | str (s : String)
  | tup (qs : List ℚ)
deriving DecidableEq, Repr

/-- A row of the modelled DataFrame: a Python dict as an association list. -/
abbrev DfRow := List (String × Val)

/-- Ideal half-to-even (banker's) rounding of a rational to an integer,
the rounding mode of Python's builtin `round`. -/
def bankersRound (x : ℚ) : ℤ :=
  let f := ⌊x⌋
  let r := x - (f : ℚ)
  if r < 1/2 then f
  else if 1/2 < r then f + 1
  else if f % 2 = 0 then f else f + 1

/-- Python `round(x, n)`: banker's rounding at `n` decimal places. -/
def pyRound (x : ℚ) (n : ℕ) : ℚ :=
  (bankersRound (x * 10 ^ n) : ℚ) / 10 ^ n

/-- A category range: name, lower bound, upper bound (`none` = `float('inf')`).
From `config.py` `MORPHOLOGY_PARAMS`, every range is `[min, max)`. -/
abbrev CatRange := String × ℚ × Option ℚ

/-- `min_val <= value < max_val` with `none` as positive infinity
(`config.py` uses `float('inf')` for the open-ended last range). -/
def inInterval (d : ℚ) (min_val : ℚ) (max_val : Option ℚ) : Bool :=
  decide (min_val ≤ d) && (match max_val with
    | none => true
    | some m => decide (d < m))

/-- `StatisticalAnalyzer._classify_by_size` / `_classify_by_aspect_ratio`
(`statistical_analysis.py` lines 55-67): first matching configured range
wins; no match gives the sentinel. -/
def classify_by (cats : List CatRange) (d : ℚ) : String :=
  match cats with
  | [] => "indefinido"
  | (category, min_val, max_val) :: rest =>
    if inInterval d min_val max_val then category else classify_by rest d

/-- `MORPHOLOGY_PARAMS['size_categories']` (`config.py` lines 39-43). -/
def size_categories : List CatRange :=
  [("pequeño", 0, some 50), ("mediano", 50, some 200), ("grande", 200, none)]

/-- `MORPHOLOGY_PARAMS['aspect_ratio_categories']` (`config.py` lines 46-50). -/
def aspect_ratio_categories : List CatRange :=
  [("esférico", 4/5, some (6/5)), ("alargado", 6/5, some 3),
   ("fibra", 3, none)]

/-- Result of `YOLODetector._calculate_morphology` (`yolo_detector.py`
lines 180-191): the dict of returned (rounded) morphology fields. -/
structure Morphology where
  area_um2 : ℚ
  perimeter_um : ℚ
  width_um : ℚ
  height_um : ℚ
  aspect_ratio : ℚ
  circularity : ℚ
  elongation : ℚ
  equivalent_diameter_um : ℚ
  centroid_x : ℚ
  centroid_y : ℚ
deriving DecidableEq, Repr

/-- `YOLODetector._calculate_morphology` (`yolo_detector.py` lines 137-191),
bounding-box measurement policy.  `pi` and `sqrt` stand for `np.pi` and
`np.sqrt`, externals the code only forwards into; `s` is
`self.pixels_to_um`. -/
def calculate_morphology (pi : ℚ) (sqrt : ℚ → ℚ) (s : ℚ)
    (x1 y1 x2 y2 : ℚ) : Morphology :=
  let width_px := x2 - x1
  let height_px := y2 - y1
  let area_px := width_px * height_px
  let width_um := width_px * s
  let height_um := height_px * s
  let area_um2 := area_px * s ^ 2
  let perimeter_px := 2 * (width_px + height_px)
  let perimeter_um := perimeter_px * s
  let aspect_ratio := if 0 < height_px then width_px / height_px else 1
  let circularity :=
    if 0 < perimeter_px then (4 * pi * area_px) / perimeter_px ^ 2 else 0
  let elongation :=
    if 0 < min width_px height_px then
      max width_px height_px / min width_px height_px
    else 1
  let equivalent_diameter_px := sqrt (4 * area_px / pi)
  let equivalent_diameter_um := equivalent_diameter_px * s
  { area_um2 := pyRound area_um2 2
    perimeter_um := pyRound perimeter_um 2
    width_um := pyRound width_um 2
    height_um := pyRound height_um 2
    aspect_ratio := pyRound aspect_ratio 3
    circularity := pyRound circularity 3
    elongation := pyRound elongation 3
    equivalent_diameter_um := pyRound equivalent_diameter_um 2
    centroid_x := pyRound ((x1 + x2) / 2) 1
    centroid_y := pyRound ((y1 + y2) / 2) 1 }

/-- The same computation as `calculate_morphology` but without the final
`round(...)` quantization: the exact intermediate values of
`yolo_detector.py` lines 150-178 before the dict at lines 180-191. -/
def calculate_morphology_exact (pi : ℚ) (sqrt : ℚ → ℚ) (s : ℚ)
    (x1 y1 x2 y2 : ℚ) : Morphology :=
  let width_px := x2 - x1
  let height_px := y2 - y1
  let area_px := width_px * height_px
  let perimeter_px := 2 * (width_px + height_px)
  { area_um2 := area_px * s ^ 2
    perimeter_um := perimeter_px * s
    width_um := width_px * s
    height_um := height_px * s
    aspect_ratio := if 0 < height_px then width_px / height_px else 1
    circularity :=
      if 0 < perimeter_px then (4 * pi * area_px) / perimeter_px ^ 2 else 0
    elongation :=
      if 0 < min width_px height_px then
        max width_px height_px / min width_px height_px
      else 1
    equivalent_diameter_um := sqrt (4 * area_px / pi) * s
    centroid_x := (x1 + x2) / 2
    centroid_y := (y1 + y2) / 2 }

/-- Precomputed `skimage.measure.regionprops` record consumed by
`ImageProcessor.extract_particles` (`image_processing.py` lines 123-157):
the external segmenter's output for one labeled region. -/
structure RegionProps where
  label : ℤ
  area : ℚ
  perimeter : ℚ
  centroid : List ℚ
  bbox : List ℚ
  major_axis_length : ℚ
  minor_axis_length : ℚ
  eccentricity : ℚ
  solidity : ℚ
  orientation : ℚ
  equivalent_diameter : ℚ
deriving DecidableEq, Repr

/-- The particle dict built by `ImageProcessor.extract_particles`
(`image_processing.py` lines 129-156), region measurement policy. -/
structure RegionParticle where
  label : ℤ
  area_pixels : ℚ
  area_um2 : ℚ
  perimeter_pixels : ℚ
  perimeter_um : ℚ
  centroid : List ℚ
  bbox : List ℚ
  major_axis : ℚ
  minor_axis : ℚ
  eccentricity : ℚ
  solidity : ℚ
  orientation : ℚ
  aspect_ratio : ℚ
  equivalent_diameter_um : ℚ
deriving DecidableEq, Repr

/-- Body of the per-region loop of `extract_particles`
(`image_processing.py` lines 129-156); `s` is `self.pixels_to_um`. -/
def regionParticleInfo (s : ℚ) (r : RegionProps) : RegionParticle :=
  { label := r.label
    area_pixels := r.area
    area_um2 := r.area * s ^ 2
    perimeter_pixels := r.perimeter
    perimeter_um := r.perimeter * s
    centroid := r.centroid
    bbox := r.bbox
    major_axis := r.major_axis_length * s
    minor_axis := r.minor_axis_length * s
    eccentricity := r.eccentricity
    solidity := r.solidity
    orientation := r.orientation
    aspect_ratio :=
      if 0 < r.minor_axis_length then r.major_axis_length / r.minor_axis_length
      else 0
    equivalent_diameter_um := r.equivalent_diameter * s }

/-- Python's `x or default` applied to an optional numeric argument
(`image_processing.py` lines 119-120: `min_area or IMAGE_PARAMS[...]`);
`0` and `None` are falsy and fall back to the default. -/
def orDefault (x : Option ℚ) (d : ℚ) : ℚ :=
  match x with
  | some v => if v = 0 then d else v
  | none => d

/-- `ImageProcessor.extract_particles` (`image_processing.py` lines 105-159):
filter the regions by pixel area (defaults from `IMAGE_PARAMS`:
`min_particle_area = 10`, `max_particle_area = 50000`) and measure each. -/
def extract_particles (s : ℚ) (min_area max_area : Option ℚ)
    (regions : List RegionProps) : List RegionParticle :=
  let minA := orDefault min_area 10
  let maxA := orDefault max_area 50000
  regions.filterMap fun r =>
    if minA ≤ r.area ∧ r.area ≤ maxA then some (regionParticleInfo s r)
    else none

example : classify_by size_categories 50 = "mediano" := by
  norm_num [classify_by, inInterval, size_categories]
example : classify_by aspect_ratio_categories (1/2) = "indefinido" := by
  norm_num [classify_by, inInterval, aspect_ratio_categories]
example : pyRound (121/10000) 2 = 1/100 := by norm_num [pyRound, bankersRound]
example : pyRound (1/2) 0 = 0 := by norm_num [pyRound, bankersRound]
example : pyRound (3/2) 0 = 2 := by norm_num [pyRound, bankersRound]

/-! ## DataFrame model (pandas fragment used by `statistical_analysis.py`) -/

/-- First-occurrence deduplication, preserving order. -/
def firstDedup (acc : List String) : List String → List String
  | [] => acc
  | k :: ks => if k ∈ acc then firstDedup acc ks else firstDedup (acc ++ [k]) ks

/-- Modelled pandas DataFrame: ordered column names plus rows; a key absent
from a row is that row's NaN for the column. -/
structure Df where
  cols : List String
  rows : List DfRow
deriving DecidableEq, Repr

/-- `pd.DataFrame(records)`: columns are the union of the dict keys in order
of first appearance; `pd.DataFrame([])` has no columns at all. -/
def pdDataFrame (records : List DfRow) : Df :=
  { cols := firstDedup [] (records.flatMap fun r => r.map Prod.fst)
    rows := records }

/-- The values of column `c`, `none` marking NaN (key absent in that row). -/
def rawCol (df : Df) (c : String) : List (Option Val) :=
  df.rows.map fun r => List.lookup c r

/-- `df[c]`: raises `KeyError` when the column does not exist. -/
def getCol (df : Df) (c : String) : Except String (List (Option Val)) :=
  if c ∈ df.cols then .ok (rawCol df c) else .error ("KeyError: " ++ c)

/-- `df[c] = values` for a full column of values (pandas column assignment);
the new binding shadows any previous entry for the key. -/
def setColV (df : Df) (c : String) (vals : List Val) : Df :=
  { cols := if c ∈ df.cols then df.cols else df.cols ++ [c]
    rows := List.zipWith (fun v r => (c, v) :: r) vals df.rows }

/-- `df[c] = scalar`: broadcast assignment of one value to every row. -/
def setColConst (df : Df) (c : String) (v : Val) : Df :=
  { cols := if c ∈ df.cols then df.cols else df.cols ++ [c]
    rows := df.rows.map fun r => (c, v) :: r }

/-- `series.dropna()`: discard the NaN entries of a column. -/
def dropna (col : List (Option Val)) : List Val :=
  col.filterMap id

/-- The numeric entries of a (numeric) column. -/
def toNums (vals : List Val) : List ℚ :=
  vals.filterMap fun v => match v with
    | .num q => some q
    | _ => none

/-- Truthiness of the optional `sample_id` argument: Python's
`if sample_id:` is false for `None` and for the empty string. -/
def truthy : Option String → Bool
  | some s => s ≠ ""
  | none => false

/-- `_classify_by_size`-style classification as applied by `Series.apply`:
a NaN input satisfies no range comparison, so it classifies to the
sentinel, exactly as `float('nan')` does in Python. -/
def classifyVal (cats : List CatRange) (v : Option Val) : String :=
  match v with
  | some (.num q) => classify_by cats q
  | _ => "indefinido"

/-- `StatisticalAnalyzer.particles_to_dataframe`
(`statistical_analysis.py` lines 26-53): build the DataFrame, optionally tag
the sample id, then derive the two classification columns.  On an empty
particle list `pd.DataFrame([])` has no columns, so the
`df['equivalent_diameter_um']` access raises `KeyError`. -/
def particles_to_dataframe (particles : List DfRow) (sample_id : Option String) :
    Except String Df := do
  let df0 := pdDataFrame particles
  let df1 := if truthy sample_id then
      setColConst df0 ("sample_id") (Val.str (sample_id.getD ("")))
    else df0
  let diam ← getCol df1 ("equivalent_diameter_um")
  let df2 := setColV df1 ("size_category")
      (diam.map fun v => Val.str (classifyVal size_categories v))
  let ar ← getCol df2 ("aspect_ratio")
  let df3 := setColV df2 ("shape_category")
      (ar.map fun v => Val.str (classifyVal aspect_ratio_categories v))
  pure df3

/-! ## Descriptive statistics (`StatisticalAnalyzer`) -/

/-- pandas linear-interpolation quantile (`Series.quantile`, default
`interpolation='linear'`); NaN on an empty series. -/
def quantileLinear (xs : List ℚ) (q : ℚ) : Option ℚ :=
  let s := xs.insertionSort (· ≤ ·)
  match s with
  | [] => none
  | _ =>
    let n := s.length
    let pos := q * ((n : ℚ) - 1)
    let i := (⌊pos⌋).toNat
    let g := pos - ((⌊pos⌋ : ℤ) : ℚ)
    let xi := s.getD i 0
    let xj := s.getD (i + 1) xi
    some (xi + g * (xj - xi))

/-- pandas `Series.std()`: sample standard deviation (`ddof=1`), NaN when
fewer than two observations.  `sqrt` stands for the numeric library's
square root, which the code only forwards into. -/
def sampleStd (sqrt : ℚ → ℚ) (xs : List ℚ) : Option ℚ :=
  if 2 ≤ xs.length then
    let m := xs.sum / (xs.length : ℚ)
    some (sqrt (((xs.map fun x => (x - m) ^ 2).sum) / ((xs.length : ℚ) - 1)))
  else none

/-- The dict built by `StatisticalAnalyzer.calculate_descriptive_stats`
(`statistical_analysis.py` lines 83-94).  Fields that pandas reports as NaN
on degenerate input are `none`. -/
structure Stats where
  count : ℕ
  mean : Option ℚ
  median : Option ℚ
  std : Option ℚ
  min : Option ℚ
  max : Option ℚ
  q25 : Option ℚ
  q75 : Option ℚ
  iqr : Option ℚ
  cv : Option ℚ
deriving DecidableEq, Repr

/-- The statistics of `calculate_descriptive_stats` over the post-`dropna`
column data (`statistical_analysis.py` lines 81-96). -/
def mkStats (sqrt : ℚ → ℚ) (data : List Val) : Stats :=
  let nums := toNums data
  let mean : Option ℚ :=
    if nums.isEmpty then none else some (nums.sum / (nums.length : ℚ))
  let std := sampleStd sqrt nums
  let q25 := quantileLinear nums (1/4)
  let q75 := quantileLinear nums (3/4)
  { count := data.length
    mean := mean
    median := quantileLinear nums (1/2)
    std := std
    min := nums.min?
    max := nums.max?
    q25 := q25
    q75 := q75
    iqr := match q75, q25 with
      | some a, some b => some (a - b)
      | _, _ => none
    cv := if mean = some 0 then some 0
      else match std, mean with
        | some sd, some m => some (sd / m * 100)
        | _, _ => none }

/-- `StatisticalAnalyzer.calculate_descriptive_stats`
(`statistical_analysis.py` lines 69-96): `df[column].dropna()` then the
stats dict; `KeyError` when the column is absent. -/
def calculate_descriptive_stats (sqrt : ℚ → ℚ) (df : Df) (column : String) :
    Except String Stats := do
  let col ← getCol df column
  pure (mkStats sqrt (dropna col))

/-- pandas `Series.value_counts()`: occurrence counts of the non-NaN
values, most frequent first (stable for ties, first appearance order). -/
def value_counts (col : List (Option Val)) : List (Val × ℕ) :=
  let vals := dropna col
  let keys := vals.foldl (fun acc v => if v ∈ acc then acc else acc ++ [v])
      ([] : List Val)
  (keys.map fun k => (k, vals.count k)).insertionSort (fun a b => b.2 ≤ a.2)

/-- Result of `StatisticalAnalyzer.analyze_size_distribution`
(`statistical_analysis.py` lines 98-124). -/
structure SizeAnalysis where
  area : Stats
  perimeter : Stats
  diameter : Stats
  category_distribution : List (Val × ℕ)
  category_percentages : List (Val × ℚ)
deriving DecidableEq, Repr

/-- Result of `StatisticalAnalyzer.analyze_shape_distribution`
(`statistical_analysis.py` lines 126-152). -/
structure ShapeAnalysis where
  aspect_ratio : Stats
  eccentricity : Stats
  solidity : Stats
  category_distribution : List (Val × ℕ)
  category_percentages : List (Val × ℚ)
deriving DecidableEq, Repr

/-- `StatisticalAnalyzer.analyze_size_distribution`
(`statistical_analysis.py` lines 98-124). -/
def analyze_size_distribution (sqrt : ℚ → ℚ) (df : Df) :
    Except String SizeAnalysis := do
  let area ← calculate_descriptive_stats sqrt df ("area_um2")
  let perimeter ← calculate_descriptive_stats sqrt df ("perimeter_um")
  let diameter ← calculate_descriptive_stats sqrt df ("equivalent_diameter_um")
  let sizeCol ← getCol df ("size_category")
  let dist := value_counts sizeCol
  let total := df.rows.length
  pure { area := area, perimeter := perimeter, diameter := diameter
         category_distribution := dist
         category_percentages :=
           dist.map fun p => (p.1, (p.2 : ℚ) / (total : ℚ) * 100) }

/-- `StatisticalAnalyzer.analyze_shape_distribution`
(`statistical_analysis.py` lines 126-152). -/
def analyze_shape_distribution (sqrt : ℚ → ℚ) (df : Df) :
    Except String ShapeAnalysis := do
  let ar ← calculate_descriptive_stats sqrt df ("aspect_ratio")
  let ecc ← calculate_descriptive_stats sqrt df ("eccentricity")
  let sol ← calculate_descriptive_stats sqrt df ("solidity")
  let shapeCol ← getCol df ("shape_category")
  let dist := value_counts shapeCol
  let total := df.rows.length
  pure { aspect_ratio := ar, eccentricity := ecc, solidity := sol
         category_distribution := dist
         category_percentages :=
           dist.map fun p => (p.1, (p.2 : ℚ) / (total : ℚ) * 100) }

/-! ## Cross-sample comparison (`StatisticalAnalyzer.compare_samples`) -/

/-- A `statistic`/`p_value`/`significant` dict produced for the pairwise and
multi-way hypothesis tests (`statistical_analysis.py` lines 196-228);
`significant` records `p_value < 0.05`. -/
structure TestResult where
  statistic : ℚ
  p_value : ℚ
  significant : Bool
deriving DecidableEq, Repr

/-- The per-sample Shapiro-Wilk dict (`statistical_analysis.py` lines
182-186); `is_normal` records `p_value > 0.05`. -/
structure NormalityResult where
  statistic : ℚ
  p_value : ℚ
  is_normal : Bool
deriving DecidableEq, Repr

/-- A value of the heterogeneous `statistical_tests` dict. -/
inductive TestEntry where
  | shapiro (r : NormalityResult)
  | test (r : TestResult)
deriving DecidableEq, Repr

/-- The scipy statistical routines used by `compare_samples`
(`scipy.stats.shapiro / ttest_ind / mannwhitneyu / f_oneway / kruskal`):
external collaborators returning a `(statistic, p_value)` pair, which the
code only forwards into. -/
structure ScipyStats where
  shapiro : List ℚ → ℚ × ℚ
  ttest_ind : List ℚ → List ℚ → ℚ × ℚ
  mannwhitneyu : List ℚ → List ℚ → ℚ × ℚ
  f_oneway : List (List ℚ) → ℚ × ℚ
  kruskal : List (List ℚ) → ℚ × ℚ

/-- The dict returned by `compare_samples`: per-sample descriptive stats
plus the `statistical_tests` entries in insertion order. -/
structure Comparison where
  samples : List (String × Stats)
  statistical_tests : List (String × TestEntry)
deriving DecidableEq, Repr

/-- The per-sample descriptive-statistics loop of `compare_samples`
(`statistical_analysis.py` lines 172-175). -/
def statsList (sqrt : ℚ → ℚ) (parameter : String) :
    List (String × Df) → Except String (List (String × Stats))
  | [] => .ok []
  | p :: rest => do
    let st ← calculate_descriptive_stats sqrt p.2 parameter
    let others ← statsList sqrt parameter rest
    pure ((p.1, st) :: others)

/-- The per-sample Shapiro-Wilk loop of `compare_samples`
(`statistical_analysis.py` lines 178-186): an entry keyed
`{sample_id}_shapiro` is added only when the sample has at least 3
observations after `dropna`. -/
def shapiroList (sci : ScipyStats) (parameter : String) :
    List (String × Df) → Except String (List (String × TestEntry))
  | [] => .ok []
  | p :: rest => do
    let col ← getCol p.2 parameter
    let data := dropna col
    let others ← shapiroList sci parameter rest
    if 3 ≤ data.length then
      let r := sci.shapiro (toNums data)
      pure ((p.1 ++ "_shapiro",
        TestEntry.shapiro ⟨r.1, r.2, decide (1/20 < r.2)⟩) :: others)
    else
      pure others

/-- The group-collection loop of the ANOVA/Kruskal-Wallis branch
(`statistical_analysis.py` line 212). -/
def groupsList (parameter : String) :
    List (String × Df) → Except String (List (List ℚ))
  | [] => .ok []
  | p :: rest => do
    let col ← getCol p.2 parameter
    let others ← groupsList parameter rest
    pure (toNums (dropna col) :: others)

/-- `StatisticalAnalyzer.compare_samples`
(`statistical_analysis.py` lines 154-230): descriptive stats per sample;
Shapiro-Wilk per sample only when the sample has at least 3 observations
after `dropna`; then, unconditionally on those normality outcomes, t-test
plus Mann-Whitney for exactly two samples, or ANOVA plus Kruskal-Wallis
for more than two. -/
def compare_samples (sci : ScipyStats) (sqrt : ℚ → ℚ)
    (dfs : List (String × Df)) (parameter : String) :
    Except String Comparison := do
  let samples ← statsList sqrt parameter dfs
  let shapiroEntries ← shapiroList sci parameter dfs
  let pairEntries ← do
    match dfs with
    | [p1, p2] => do
      let col1 ← getCol p1.2 parameter
      let col2 ← getCol p2.2 parameter
      let data1 := toNums (dropna col1)
      let data2 := toNums (dropna col2)
      let t := sci.ttest_ind data1 data2
      let u := sci.mannwhitneyu data1 data2
      pure [("t_test", TestEntry.test ⟨t.1, t.2, decide (t.2 < 1/20)⟩),
            ("mann_whitney", TestEntry.test ⟨u.1, u.2, decide (u.2 < 1/20)⟩)]
    | _ =>
      if 2 < dfs.length then do
        let groups ← groupsList parameter dfs
        let f := sci.f_oneway groups
        let k := sci.kruskal groups
        pure [("anova", TestEntry.test ⟨f.1, f.2, decide (f.2 < 1/20)⟩),
              ("kruskal_wallis", TestEntry.test ⟨k.1, k.2, decide (k.2 < 1/20)⟩)]
      else
        pure []
  pure { samples := samples, statistical_tests := shapiroEntries ++ pairEntries }

/-! ## Report generation (`StatisticalAnalyzer.generate_summary_report`) -/

/-- Python `"c" * n`: a string of `n` copies of one character. -/
def repChar (c : Char) (n : ℕ) : String := String.mk (List.replicate n c)

/-- Python `str.capitalize()`: first character uppercased, rest lowercased
(ASCII-faithful; the category labels used here are ASCII-initial). -/
def pyCapitalize (s : String) : String :=
  match s.data with
  | [] => ""
  | c :: cs => String.mk (c.toUpper :: cs.map Char.toLower)

/-- Left-pad with zeros to `n` characters. -/
def padZeros (s : String) (n : ℕ) : String := repChar ('0') (n - s.length) ++ s

/-- Python `f"{x:.nf}"` fixed-point formatting of an (idealized) float:
decimal half-to-even rounding at `n` places; NaN prints as `nan`. -/
def formatFixed (x : Option ℚ) (n : ℕ) : String :=
  match x with
  | none => "nan"
  | some q =>
    let m := bankersRound (q * 10 ^ n)
    let sign := if m < 0 then "-" else ""
    let a := m.natAbs
    if n = 0 then sign ++ toString a
    else sign ++ toString (a / 10 ^ n) ++ "." ++ padZeros (toString (a % 10 ^ n)) n

/-- The displayed form of a category value in the report
(`category.capitalize()`; the classifier only ever emits strings). -/
def capitalizeVal : Val → String
  | .str s => pyCapitalize s
  | _ => ""

/-- One report line per category:
`f"  {category.capitalize()}: {count} partículas ({percentage:.1f}%)"`,
with the count looked up in the distribution dict
(`statistical_analysis.py` lines 284-286 and 304-306). -/
def categoryLines (percentages : List (Val × ℚ)) (distribution : List (Val × ℕ)) :
    Except String (List String) :=
  percentages.mapM fun p =>
    match List.lookup p.1 distribution with
    | some count => .ok ("  " ++ capitalizeVal p.1 ++ ": " ++ toString count
        ++ " partículas (" ++ formatFixed (some p.2) 1 ++ "%)")
    | none => .error ("KeyError: category")

/-- `StatisticalAnalyzer.generate_summary_report`
(`statistical_analysis.py` lines 256-311): the joined report text. -/
def generate_summary_report (sqrt : ℚ → ℚ) (df : Df) (sample_id : Option String) :
    Except String String := do
  let size_analysis ← analyze_size_distribution sqrt df
  let sizeLines ← categoryLines size_analysis.category_percentages
      size_analysis.category_distribution
  let shape_analysis ← analyze_shape_distribution sqrt df
  let shapeLines ← categoryLines shape_analysis.category_percentages
      shape_analysis.category_distribution
  let area_stats := size_analysis.area
  let header := [repChar ('=') 60, "REPORTE DE ANÁLISIS DE MICROPLÁSTICOS"]
      ++ (if truthy sample_id then ["Muestra: " ++ sample_id.getD ("")] else [])
      ++ [repChar ('=') 60, "",
          "Número total de partículas detectadas: " ++ toString df.rows.length,
          "", "DISTRIBUCIÓN DE TAMAÑOS:", repChar ('-') 40]
  let areaSection := ["", "ESTADÍSTICOS DE ÁREA (μm²):", repChar ('-') 40,
      "  Media: " ++ formatFixed area_stats.mean 2,
      "  Mediana: " ++ formatFixed area_stats.median 2,
      "  Desviación estándar: " ++ formatFixed area_stats.std 2,
      "  Mínimo: " ++ formatFixed area_stats.min 2,
      "  Máximo: " ++ formatFixed area_stats.max 2, ""]
  pure (String.intercalate ("\n")
    (header ++ sizeLines ++ areaSection
      ++ ["DISTRIBUCIÓN DE FORMAS:", repChar ('-') 40]
      ++ shapeLines ++ ["", repChar ('=') 60]))

/-! ## Concrete fixtures -/

/-- The particle dict of the region policy as a DataFrame row, with the
keys in the dict-construction order of `image_processing.py` lines 129-155. -/
def RegionParticle.toRow (p : RegionParticle) : DfRow :=
  [("label", Val.num (p.label : ℚ)),
   ("area_pixels", Val.num p.area_pixels),
   ("area_um2", Val.num p.area_um2),
   ("perimeter_pixels", Val.num p.perimeter_pixels),
   ("perimeter_um", Val.num p.perimeter_um),
   ("centroid", Val.tup p.centroid),
   ("bbox", Val.tup p.bbox),
   ("major_axis", Val.num p.major_axis),
   ("minor_axis", Val.num p.minor_axis),
   ("eccentricity", Val.num p.eccentricity),
   ("solidity", Val.num p.solidity),
   ("orientation", Val.num p.orientation),
   ("aspect_ratio", Val.num p.aspect_ratio),
   ("equivalent_diameter_um", Val.num p.equivalent_diameter_um)]

/-- A concrete segmented region: area 100 px², perimeter 40 px, unit axes
(aspect ratio 1), equivalent diameter 10 px. -/
def regionA : RegionProps :=
  { label := 1, area := 100, perimeter := 40, centroid := [5, 5]
    bbox := [0, 0, 10, 10], major_axis_length := 1, minor_axis_length := 1
    eccentricity := 1/2, solidity := 9/10, orientation := 0
    equivalent_diameter := 10 }

/-- Two identical concrete particles measured at calibration 1 µm/px:
a sample whose area column is `[100, 100]` (variance 0). -/
def goldenParticles : List DfRow :=
  (extract_particles 1 none none [regionA, regionA]).map RegionParticle.toRow

/-- Stand-in for the numeric library's square root in concrete runs: the
only square root the golden sample needs is `sqrt 0 = 0`, on which this
function agrees with the real one. -/
def sqrtZero : ℚ → ℚ := fun _ => 0

/-- The DataFrame produced by aggregating `goldenParticles` under sample id
`M1` (each row in dict order after the three column assignments). -/
def goldenRow : DfRow :=
  [("shape_category", Val.str "esférico"),
   ("size_category", Val.str "pequeño"),
   ("sample_id", Val.str "M1"),
   ("label", Val.num 1),
   ("area_pixels", Val.num 100),
   ("area_um2", Val.num 100),
   ("perimeter_pixels", Val.num 40),
   ("perimeter_um", Val.num 40),
   ("centroid", Val.tup [5, 5]),
   ("bbox", Val.tup [0, 0, 10, 10]),
   ("major_axis", Val.num 1),
   ("minor_axis", Val.num 1),
   ("eccentricity", Val.num (1/2)),
   ("solidity", Val.num (9/10)),
   ("orientation", Val.num 0),
   ("aspect_ratio", Val.num 1),
   ("equivalent_diameter_um", Val.num 10)]

/-- The expected aggregated table for the golden sample. -/
def goldenDf : Df :=
  { cols := ["label", "area_pixels", "area_um2", "perimeter_pixels",
             "perimeter_um", "centroid", "bbox", "major_axis", "minor_axis",
             "eccentricity", "solidity", "orientation", "aspect_ratio",
             "equivalent_diameter_um", "sample_id", "size_category",
             "shape_category"],
    rows := [goldenRow, goldenRow] }

/-- The byte-exact report text for the golden sample, line by line
(the separator lines are 60 `=` and 40 `-` characters). -/
def goldenReport : String :=
  String.intercalate ("\n")
    [repChar ('=') 60,
     "REPORTE DE AN\u00c1LISIS DE MICROPL\u00c1STICOS",
     "Muestra: M1",
     repChar ('=') 60,
     "",
     "N\u00famero total de part\u00edculas detectadas: 2",
     "",
     "DISTRIBUCI\u00d3N DE TAMA\u00d1OS:",
     repChar ('-') 40,
     "  Peque\u00f1o: 2 part\u00edculas (100.0%)",
     "",
     "ESTAD\u00cdSTICOS DE \u00c1REA (\u03bcm\u00b2):",
     repChar ('-') 40,
     "  Media: 100.00",
     "  Mediana: 100.00",
     "  Desviaci\u00f3n est\u00e1ndar: 0.00",
     "  M\u00ednimo: 100.00",
     "  M\u00e1ximo: 100.00",
     "",
     "DISTRIBUCI\u00d3N DE FORMAS:",
     repChar ('-') 40,
     "  Esf\u00e9rico: 2 part\u00edculas (100.0%)",
     "",
     repChar ('=') 60]

deriving instance DecidableEq for Except

/-- A concrete stand-in for the scipy routines, used to instantiate the
comparison theorems on concrete inputs. -/
def sciConst : ScipyStats :=
  { shapiro := fun l => ((l.length : ℚ), 1)
    ttest_ind := fun _ _ => (0, 1)
    mannwhitneyu := fun _ _ => (0, 1)
    f_oneway := fun _ => (0, 1)
    kruskal := fun _ => (0, 1) }

/-! ## Helper lemmas -/

/-- The non-NaN values of column `parameter`: the `df[parameter].dropna()`
series that `compare_samples` tests operate on. -/
def colData (df : Df) (parameter : String) : List Val :=
  dropna (rawCol df parameter)

/-- The Shapiro-Wilk entries that `compare_samples` adds: one per sample
with at least 3 post-`dropna` observations, keyed `{sample_id}_shapiro`,
with `is_normal` recording `p_value > 0.05`. -/
def shapiroEntriesSpec (sci : ScipyStats) (dfs : List (String × Df))
    (param : String) : List (String × TestEntry) :=
  dfs.filterMap fun p =>
    let data := colData p.2 param
    if 3 ≤ data.length then
      some (p.1 ++ "_shapiro", TestEntry.shapiro
        ⟨(sci.shapiro (toNums data)).1, (sci.shapiro (toNums data)).2,
         decide (1/20 < (sci.shapiro (toNums data)).2)⟩)
    else none

theorem getCol_ok {df : Df} {c : String} (h : c ∈ df.cols) :
    getCol df c = .ok (rawCol df c) := by
  simp [getCol, h]

theorem calc_stats_ok (sq : ℚ → ℚ) {df : Df} {c : String} (h : c ∈ df.cols) :
    calculate_descriptive_stats sq df c = .ok (mkStats sq (colData df c)) := by
  simp [calculate_descriptive_stats, getCol_ok h, colData, Bind.bind,
    Except.bind, pure, Except.pure]

theorem list_mapM_ok {α β : Type} (f : α → Except String β) (g : α → β)
    (l : List α) (h : ∀ a ∈ l, f a = .ok (g a)) : l.mapM f = .ok (l.map g) := by
  induction l with
  | nil => rfl
  | cons a t ih =>
    have ha : f a = .ok (g a) := h a (by simp)
    have ht : t.mapM f = .ok (t.map g) := ih fun x hx => h x (by simp [hx])
    rw [List.mapM_cons, ha, ht]
    rfl

theorem lookup_isSome_iff {β : Type} (l : List (String × β)) (a : String) :
    (List.lookup a l).isSome ↔ a ∈ l.map Prod.fst := by
  induction l with
  | nil => simp [List.lookup]
  | cons p t ih =>
    obtain ⟨k, v⟩ := p
    by_cases h : a = k
    · simp [List.lookup, h]
    · have hb : (a == k) = false := beq_eq_false_iff_ne.mpr h
      simp [List.lookup, hb, ih, h]

theorem string_data_ext {s t : String} (h : s.data = t.data) : s = t := by
  cases s; cases t; exact congrArg String.mk h

theorem append_shapiro_ne {sid k : String}
    (h : ¬ ("_shapiro".data <:+ k.data)) : sid ++ "_shapiro" ≠ k := by
  intro he
  apply h
  rw [← he, String.data_append]
  exact List.suffix_append _ _

theorem append_shapiro_inj {a b : String}
    (h : a ++ "_shapiro" = b ++ "_shapiro") : a = b := by
  have hd : a.data ++ "_shapiro".data = b.data ++ "_shapiro".data := by
    rw [← String.data_append, ← String.data_append, h]
  exact string_data_ext (List.append_cancel_right hd)

theorem nodup_keys_unique {β : Type} {l : List (String × β)}
    (h : (l.map Prod.fst).Nodup) {a : String} {b1 b2 : β}
    (h1 : (a, b1) ∈ l) (h2 : (a, b2) ∈ l) : b1 = b2 := by
  induction l with
  | nil => cases h1
  | cons p t ih =>
    rw [List.map_cons, List.nodup_cons] at h
    rcases List.mem_cons.mp h1 with e1 | m1
    · rcases List.mem_cons.mp h2 with e2 | m2
      · rw [← e1] at e2
        exact ((Prod.mk.injEq _ _ _ _).mp e2).2.symm
      · exfalso
        apply h.1
        have hp : p.1 = a := by rw [← e1]
        rw [hp]
        exact List.mem_map.mpr ⟨(a, b2), m2, rfl⟩
    · rcases List.mem_cons.mp h2 with e2 | m2
      · exfalso
        apply h.1
        have hp : p.1 = a := by rw [← e2]
        rw [hp]
        exact List.mem_map.mpr ⟨(a, b1), m1, rfl⟩
      · exact ih h.2 m1 m2

/-! ## Claim theorems -/

/-- C1: For every numeric value and every ordered configuration of
half-open `[min, max)` category ranges, the classifier returns the name of
the first interval containing the value and the sentinel `indefinido` when
no interval matches; in particular, with the default size ranges, diameter
50.0 classifies as `mediano` (the lower bound is inclusive). -/
theorem classifier_first_match :
    (∀ (cats : List CatRange) (d : ℚ),
      classify_by cats d =
        ((cats.find? fun c => inInterval d c.2.1 c.2.2).map Prod.fst).getD
          ("indefinido")) ∧
    classify_by size_categories 50 = "mediano" := by
  constructor
  · intro cats d
    induction cats with
    | nil => rfl
    | cons c rest ih =>
      obtain ⟨name, mn, mx⟩ := c
      cases h : inInterval d mn mx with
      | true => simp [classify_by, List.find?, h]
      | false => simp [classify_by, List.find?, h, ih]
  · norm_num [classify_by, inInterval, size_categories]

/-- C3: on degenerate geometry the aspect ratio is the documented
policy-specific sentinel: the region policy returns 0 when
`minor_axis_length == 0`, the bounding-box policy returns 1.0 when
`height_px == 0`; neither divides by the vanishing denominator. -/
theorem degenerate_aspect_ratio_sentinels :
    (∀ (s : ℚ) (r : RegionProps), r.minor_axis_length = 0 →
      (regionParticleInfo s r).aspect_ratio = 0) ∧
    (∀ (pi : ℚ) (sq : ℚ → ℚ) (s x1 y1 x2 y2 : ℚ), y2 - y1 = 0 →
      (calculate_morphology pi sq s x1 y1 x2 y2).aspect_ratio = 1) := by
  constructor
  · intro s r h
    simp [regionParticleInfo, h]
  · intro pi sq s x1 y1 x2 y2 h
    simp only [calculate_morphology, h]
    norm_num [pyRound, bankersRound]

/-- C3 witness: concrete degenerate inputs for both policies. -/
theorem degenerate_aspect_ratio_sentinels_witness :
    ({ regionA with minor_axis_length := 0 } : RegionProps).minor_axis_length
        = 0 ∧
    (regionParticleInfo 2 { regionA with minor_axis_length := 0 }).aspect_ratio
        = 0 ∧
    ((7 : ℚ) - 7 = 0) ∧
    (calculate_morphology 3 sqrtZero 1 0 7 5 7).aspect_ratio = 1 := by
  refine ⟨by with_unfolding_all decide,
    degenerate_aspect_ratio_sentinels.1 2 _ (by with_unfolding_all decide),
    by norm_num,
    degenerate_aspect_ratio_sentinels.2 3 sqrtZero 1 0 7 5 7 (by norm_num)⟩

/-- C5: the claim says an empty particle list aggregates to an empty table
and the report generator renders a zero-particle report without raising; in
the code both steps raise `KeyError`, because `pd.DataFrame([])` has no
columns, so `df['equivalent_diameter_um']` (aggregation) and
`df['area_um2']` (report) fail.  This evaluates the code at the failing
input. -/
theorem empty_particles_keyerror :
    particles_to_dataframe [] none
        = .error ("KeyError: equivalent_diameter_um") ∧
    particles_to_dataframe [] (some "M1")
        = .error ("KeyError: equivalent_diameter_um") ∧
    generate_summary_report sqrtZero (pdDataFrame []) none
        = .error ("KeyError: area_um2") := by
  refine ⟨?_, ?_, ?_⟩ <;> with_unfolding_all decide

/-- C6: bounding-box policy on `x1=0, y1=0, x2=10, y2=40` at calibration
`1.0`: width 10 µm, height 40 µm, aspect ratio 0.25 (width/height
convention), elongation 4.0, area 400 µm². -/
theorem bbox_example_scenario2 :
    ∀ (pi : ℚ) (sq : ℚ → ℚ),
      (calculate_morphology pi sq 1 0 0 10 40).width_um = 10 ∧
      (calculate_morphology pi sq 1 0 0 10 40).height_um = 40 ∧
      (calculate_morphology pi sq 1 0 0 10 40).aspect_ratio = 1/4 ∧
      (calculate_morphology pi sq 1 0 0 10 40).elongation = 4 ∧
      (calculate_morphology pi sq 1 0 0 10 40).area_um2 = 400 := by
  intro pi sq
  refine ⟨?_, ?_, ?_, ?_, ?_⟩ <;>
    norm_num [calculate_morphology, pyRound, bankersRound]

/-- C2 counterexample: the bounding-box policy quantizes `area_um2` to two
decimals, so at `x1=0, y1=0, x2=1, y2=1` and `s = 0.055` the returned
`area_um2` is `0`, not `area_px * s**2 = 0.003025`, and doubling `s` to
`0.11` yields `0.01`, not four times the previous value: the claimed exact
identities fail for the bbox policy as returned. -/
theorem calibration_scaling_cex :
    (calculate_morphology 3 sqrtZero (11/200) 0 0 1 1).area_um2
        ≠ 1 * ((11/200 : ℚ)) ^ 2 ∧
    (calculate_morphology 3 sqrtZero (11/100) 0 0 1 1).area_um2
        ≠ 4 * (calculate_morphology 3 sqrtZero (11/200) 0 0 1 1).area_um2 := by
  refine ⟨?_, ?_⟩ <;> with_unfolding_all decide

/-- C2 (amended): for the region policy the identities hold exactly on the
returned fields — `area_um2 = area_px * s²`, and doubling `s` quadruples
`area_um2` and doubles every length field (perimeter, major/minor axis,
equivalent diameter); for the bounding-box policy they hold for the exact
pre-rounding values (including width/height), while the returned fields are
those values quantized by `round` (see the counterexample). -/
theorem calibration_scaling :
    (∀ (s : ℚ) (r : RegionProps),
      (regionParticleInfo s r).area_um2 = r.area * s ^ 2 ∧
      (regionParticleInfo (2 * s) r).area_um2
          = 4 * (regionParticleInfo s r).area_um2 ∧
      (regionParticleInfo (2 * s) r).perimeter_um
          = 2 * (regionParticleInfo s r).perimeter_um ∧
      (regionParticleInfo (2 * s) r).major_axis
          = 2 * (regionParticleInfo s r).major_axis ∧
      (regionParticleInfo (2 * s) r).minor_axis
          = 2 * (regionParticleInfo s r).minor_axis ∧
      (regionParticleInfo (2 * s) r).equivalent_diameter_um
          = 2 * (regionParticleInfo s r).equivalent_diameter_um) ∧
    (∀ (pi : ℚ) (sq : ℚ → ℚ) (s x1 y1 x2 y2 : ℚ),
      (calculate_morphology_exact pi sq s x1 y1 x2 y2).area_um2
          = ((x2 - x1) * (y2 - y1)) * s ^ 2 ∧
      (calculate_morphology_exact pi sq (2 * s) x1 y1 x2 y2).area_um2
          = 4 * (calculate_morphology_exact pi sq s x1 y1 x2 y2).area_um2 ∧
      (calculate_morphology_exact pi sq (2 * s) x1 y1 x2 y2).width_um
          = 2 * (calculate_morphology_exact pi sq s x1 y1 x2 y2).width_um ∧
      (calculate_morphology_exact pi sq (2 * s) x1 y1 x2 y2).height_um
          = 2 * (calculate_morphology_exact pi sq s x1 y1 x2 y2).height_um ∧
      (calculate_morphology_exact pi sq (2 * s) x1 y1 x2 y2).perimeter_um
          = 2 * (calculate_morphology_exact pi sq s x1 y1 x2 y2).perimeter_um ∧
      (calculate_morphology_exact pi sq (2 * s) x1 y1 x2 y2).equivalent_diameter_um
          = 2 * (calculate_morphology_exact pi sq s x1 y1 x2 y2).equivalent_diameter_um ∧
      (calculate_morphology pi sq s x1 y1 x2 y2).area_um2
          = pyRound ((calculate_morphology_exact pi sq s x1 y1 x2 y2).area_um2) 2 ∧
      (calculate_morphology pi sq s x1 y1 x2 y2).width_um
          = pyRound ((calculate_morphology_exact pi sq s x1 y1 x2 y2).width_um) 2) := by
  constructor
  · intro s r
    refine ⟨rfl, ?_, ?_, ?_, ?_, ?_⟩ <;> simp [regionParticleInfo] <;> ring
  · intro pi sq s x1 y1 x2 y2
    refine ⟨rfl, ?_, ?_, ?_, ?_, ?_, rfl, rfl⟩ <;>
      simp [calculate_morphology_exact] <;> ring

/-- C10: every field the bounding-box policy returns is the exact value
quantized by Python `round` — 2 decimals for areas and lengths, 3 for the
shape ratios, 1 for the centroid — so `area_um2` is
`round(area_px * s**2, 2)` rather than the exact product (witnessed by the
strict inequality at `s = 1/8`). -/
theorem bbox_quantization :
    (∀ (pi : ℚ) (sq : ℚ → ℚ) (s x1 y1 x2 y2 : ℚ),
      (calculate_morphology pi sq s x1 y1 x2 y2).area_um2
          = pyRound ((calculate_morphology_exact pi sq s x1 y1 x2 y2).area_um2) 2 ∧
      (calculate_morphology pi sq s x1 y1 x2 y2).perimeter_um
          = pyRound ((calculate_morphology_exact pi sq s x1 y1 x2 y2).perimeter_um) 2 ∧
      (calculate_morphology pi sq s x1 y1 x2 y2).width_um
          = pyRound ((calculate_morphology_exact pi sq s x1 y1 x2 y2).width_um) 2 ∧
      (calculate_morphology pi sq s x1 y1 x2 y2).height_um
          = pyRound ((calculate_morphology_exact pi sq s x1 y1 x2 y2).height_um) 2 ∧
      (calculate_morphology pi sq s x1 y1 x2 y2).equivalent_diameter_um
          = pyRound ((calculate_morphology_exact pi sq s x1 y1 x2 y2).equivalent_diameter_um) 2 ∧
      (calculate_morphology pi sq s x1 y1 x2 y2).aspect_ratio
          = pyRound ((calculate_morphology_exact pi sq s x1 y1 x2 y2).aspect_ratio) 3 ∧
      (calculate_morphology pi sq s x1 y1 x2 y2).circularity
          = pyRound ((calculate_morphology_exact pi sq s x1 y1 x2 y2).circularity) 3 ∧
      (calculate_morphology pi sq s x1 y1 x2 y2).elongation
          = pyRound ((calculate_morphology_exact pi sq s x1 y1 x2 y2).elongation) 3 ∧
      (calculate_morphology pi sq s x1 y1 x2 y2).centroid_x
          = pyRound ((calculate_morphology_exact pi sq s x1 y1 x2 y2).centroid_x) 1 ∧
      (calculate_morphology pi sq s x1 y1 x2 y2).centroid_y
          = pyRound ((calculate_morphology_exact pi sq s x1 y1 x2 y2).centroid_y) 1 ∧
      (calculate_morphology pi sq s x1 y1 x2 y2).area_um2
          = pyRound (((x2 - x1) * (y2 - y1)) * s ^ 2) 2) ∧
    (calculate_morphology 3 sqrtZero (1/8) 0 0 1 1).area_um2
        ≠ 1 * ((1/8 : ℚ)) ^ 2 := by
  constructor
  · intro pi sq s x1 y1 x2 y2
    exact ⟨rfl, rfl, rfl, rfl, rfl, rfl, rfl, rfl, rfl, rfl, rfl⟩
  · with_unfolding_all decide

set_option maxRecDepth 400000 in
/-- C8 counterexample: running the full aggregation + report pipeline on a
concrete two-particle sample produces a report whose percentage values are
rendered with one decimal (`(100.0%)`), and no percentage is rendered with
two decimals anywhere (`100.00%` never occurs), refuting "2-decimal numeric
formatting for all area and percentage values". -/
theorem report_percentage_formatting_cex :
    (particles_to_dataframe goldenParticles (some "M1")).bind
        (fun df => generate_summary_report sqrtZero df (some "M1"))
      = .ok goldenReport ∧
    ("(100.0%)".data <:+: goldenReport.data) ∧
    ¬ ("100.00%".data <:+: goldenReport.data) := by
  refine ⟨?_, ?_, ?_⟩ <;> with_unfolding_all decide

set_option maxRecDepth 400000 in
/-- C8 (amended): the report generator is a pure function of the table and
sample id, so identical input yields byte-identical text; on the golden
sample the output is exactly `goldenReport`, whose separators are the fixed
60/40-character rules, whose area statistics are formatted with 2 decimals
(`  Media: 100.00`), and whose percentage values are formatted with 1
decimal, not 2. -/
theorem report_golden_output :
    (particles_to_dataframe goldenParticles (some "M1")).bind
        (fun df => generate_summary_report sqrtZero df (some "M1"))
      = .ok goldenReport ∧
    ((repChar ('=') 60).data <:+: goldenReport.data) ∧
    ((repChar ('-') 40).data <:+: goldenReport.data) ∧
    (("  Media: 100.00").data <:+: goldenReport.data) ∧
    (("  Desviación estándar: 0.00").data <:+: goldenReport.data) := by
  refine ⟨?_, ?_, ?_, ?_, ?_⟩ <;> with_unfolding_all decide

/-- C9 counterexample: at `N = 0` the round-trip does not return count 0 —
aggregation of the empty list raises `KeyError` (see the empty-input
defect), so the claim fails for the empty particle list. -/
theorem roundtrip_count_cex :
    (particles_to_dataframe [] (some "M1")).bind
        (fun df => calculate_descriptive_stats sqrtZero df ("area_um2"))
      = .error ("KeyError: equivalent_diameter_um") := by
  with_unfolding_all decide

theorem mem_firstDedup (k : String) :
    ∀ (l acc : List String), k ∈ firstDedup acc l ↔ k ∈ acc ∨ k ∈ l := by
  intro l
  induction l with
  | nil => intro acc; simp [firstDedup]
  | cons a t ih =>
    intro acc
    by_cases h : a ∈ acc
    · rw [show firstDedup acc (a :: t) = firstDedup acc t from by
        simp [firstDedup, h], ih]
      simp only [List.mem_cons]
      constructor
      · tauto
      · rintro (hk | rfl | hk) <;> tauto
    · rw [show firstDedup acc (a :: t) = firstDedup (acc ++ [a]) t from by
        simp [firstDedup, h], ih]
      simp only [List.mem_append, List.mem_cons, List.mem_singleton]
      tauto

theorem mem_pdDataFrame_cols {records : List DfRow} {c : String} :
    c ∈ (pdDataFrame records).cols ↔ ∃ r ∈ records, c ∈ r.map Prod.fst := by
  simp [pdDataFrame, mem_firstDedup, List.mem_flatMap]

theorem mem_cols_setColV {df : Df} {c c' : String} (h : c ∈ df.cols)
    (vals : List Val) : c ∈ (setColV df c' vals).cols := by
  by_cases hc : c' ∈ df.cols <;> simp [setColV, hc, h]

theorem mem_cols_setColConst {df : Df} {c c' : String} (h : c ∈ df.cols)
    (v : Val) : c ∈ (setColConst df c' v).cols := by
  by_cases hc : c' ∈ df.cols <;> simp [setColConst, hc, h]

theorem map_lookup_cons_ne {c c' : String} (h : c ≠ c') (v : Val) :
    ∀ (rows : List DfRow),
      (rows.map fun r => List.lookup c ((c', v) :: r))
        = rows.map fun r => List.lookup c r := by
  intro rows
  induction rows with
  | nil => rfl
  | cons r t ih => simp [List.lookup, beq_eq_false_iff_ne.mpr h, ih]

theorem rawCol_setColConst_ne {df : Df} {c c' : String} (h : c ≠ c')
    (v : Val) : rawCol (setColConst df c' v) c = rawCol df c := by
  simp only [rawCol, setColConst, List.map_map, Function.comp]
  exact map_lookup_cons_ne h v df.rows

theorem rawCol_setColV_ne {df : Df} {c c' : String} (h : c ≠ c')
    {vals : List Val} (hlen : vals.length = df.rows.length) :
    rawCol (setColV df c' vals) c = rawCol df c := by
  simp only [rawCol, setColV]
  revert hlen
  generalize df.rows = rows
  induction vals generalizing rows with
  | nil =>
    intro hlen
    cases rows with
    | nil => simp
    | cons r t => simp at hlen
  | cons v vt ih =>
    intro hlen
    cases rows with
    | nil => simp at hlen
    | cons r t =>
      simp only [List.zipWith_cons_cons, List.map_cons]
      rw [ih t (by simpa using hlen)]
      simp [List.lookup, beq_eq_false_iff_ne.mpr h]

theorem rawCol_length (df : Df) (c : String) :
    (rawCol df c).length = df.rows.length := by
  simp [rawCol]

theorem rows_setColV_length {df : Df} {c : String} {vals : List Val}
    (hlen : vals.length = df.rows.length) :
    (setColV df c vals).rows.length = df.rows.length := by
  simp [setColV, hlen]

theorem dropna_length_of_all_isSome {rows : List DfRow} {c : String}
    (h : ∀ r ∈ rows, (List.lookup c r).isSome) :
    (dropna (rows.map fun r => List.lookup c r)).length = rows.length := by
  induction rows with
  | nil => rfl
  | cons r t ih =>
    have hr := h r (List.mem_cons_self r t)
    obtain ⟨v, hv⟩ := Option.isSome_iff_exists.mp hr
    have ht : (dropna (t.map fun r => List.lookup c r)).length = t.length :=
      ih fun x hx => h x (List.mem_cons_of_mem _ hx)
    simp only [dropna] at ht ⊢
    rw [List.map_cons, hv]
    simp only [List.filterMap_cons, id_eq, List.length_cons]
    rw [ht]

/-- C9 (amended): for every nonempty list of `N` particles whose rows all
carry the aggregation keys and the queried column `c` (no missing entries),
aggregating and then computing descriptive statistics on `c` succeeds and
returns `count = N`; for `N = 0` the pipeline instead raises (see the
counterexample). -/
theorem roundtrip_count (sq : ℚ → ℚ) (particles : List DfRow) (c : String)
    (sid : Option String)
    (hne : particles ≠ [])
    (hdiam : ∀ r ∈ particles, (List.lookup ("equivalent_diameter_um") r).isSome)
    (har : ∀ r ∈ particles, (List.lookup ("aspect_ratio") r).isSome)
    (hc : ∀ r ∈ particles, (List.lookup c r).isSome)
    (h1 : c ≠ "sample_id") (h2 : c ≠ "size_category")
    (h3 : c ≠ "shape_category") :
    ∃ stats,
      (particles_to_dataframe particles sid).bind
          (fun df => calculate_descriptive_stats sq df c) = .ok stats ∧
      stats.count = particles.length := by
  obtain ⟨r0, hr0⟩ := List.exists_mem_of_ne_nil particles hne
  have hkey : ∀ k : String, (∀ r ∈ particles, (List.lookup k r).isSome) →
      k ∈ (pdDataFrame particles).cols := by
    intro k hk
    exact mem_pdDataFrame_cols.mpr
      ⟨r0, hr0, (lookup_isSome_iff r0 k).mp (hk r0 hr0)⟩
  obtain ⟨df1, hdf1eq, hrows1, hcols1, hraw1⟩ :
      ∃ df1 : Df,
        (if truthy sid then
            setColConst (pdDataFrame particles) ("sample_id")
              (Val.str (sid.getD (""))) else pdDataFrame particles) = df1 ∧
        df1.rows.length = particles.length ∧
        (∀ k, k ∈ (pdDataFrame particles).cols → k ∈ df1.cols) ∧
        (∀ k, k ≠ "sample_id" →
          rawCol df1 k = particles.map fun r => List.lookup k r) := by
    by_cases htr : truthy sid
    · refine ⟨setColConst (pdDataFrame particles) ("sample_id")
        (Val.str (sid.getD (""))), by rw [if_pos htr], ?_, ?_, ?_⟩
      · simp [setColConst, pdDataFrame]
      · intro k hk
        exact mem_cols_setColConst hk _
      · intro k hk
        rw [rawCol_setColConst_ne hk]
        rfl
    · exact ⟨pdDataFrame particles, by rw [if_neg htr],
        by simp [pdDataFrame], fun k hk => hk, fun k _ => rfl⟩
  set vals1 := (rawCol df1 ("equivalent_diameter_um")).map
      (fun v => Val.str (classifyVal size_categories v)) with hv1
  set df2 := setColV df1 ("size_category") vals1 with hd2
  set vals2 := (rawCol df2 ("aspect_ratio")).map
      (fun v => Val.str (classifyVal aspect_ratio_categories v)) with hv2
  set df3 := setColV df2 ("shape_category") vals2 with hd3
  have hd1 : "equivalent_diameter_um" ∈ df1.cols := hcols1 _ (hkey _ hdiam)
  have ha2 : "aspect_ratio" ∈ df2.cols := by
    rw [hd2]
    exact mem_cols_setColV (hcols1 _ (hkey _ har)) _
  have hc3 : c ∈ df3.cols := by
    rw [hd3, hd2]
    exact mem_cols_setColV (mem_cols_setColV (hcols1 _ (hkey _ hc)) _) _
  have hlen1 : vals1.length = df1.rows.length := by
    rw [hv1]
    simp [rawCol_length]
  have hlen2 : vals2.length = df2.rows.length := by
    rw [hv2]
    simp [rawCol_length]
  have hpdf : particles_to_dataframe particles sid = .ok df3 := by
    simp only [particles_to_dataframe, hdf1eq, getCol_ok hd1, getCol_ok ha2,
      ← hv1, ← hd2, ← hv2, ← hd3, Bind.bind, Except.bind, pure, Except.pure]
  have hrawc : rawCol df3 c = particles.map fun r => List.lookup c r := by
    rw [hd3, rawCol_setColV_ne h3 hlen2, hd2, rawCol_setColV_ne h2 hlen1,
      hraw1 c h1]
  have hcount : (dropna (rawCol df3 c)).length = particles.length := by
    rw [hrawc]
    exact dropna_length_of_all_isSome hc
  refine ⟨mkStats sq (colData df3 c), ?_, ?_⟩
  · rw [hpdf]
    simp [Bind.bind, Except.bind, calc_stats_ok sq hc3]
  · simpa [mkStats, colData] using hcount

/-- C9 witness: the golden two-particle sample round-trips to count 2. -/
theorem roundtrip_count_witness :
    ∃ stats,
      (particles_to_dataframe goldenParticles (some "M1")).bind
          (fun df => calculate_descriptive_stats sqrtZero df ("area_um2"))
        = .ok stats ∧
      stats.count = goldenParticles.length :=
  roundtrip_count sqrtZero goldenParticles ("area_um2") (some "M1")
    (by with_unfolding_all decide) (by with_unfolding_all decide)
    (by with_unfolding_all decide) (by with_unfolding_all decide)
    (by decide) (by decide) (by decide)

theorem statsList_ok (sq : ℚ → ℚ) (param : String) :
    ∀ {dfs : List (String × Df)}, (∀ p ∈ dfs, param ∈ p.2.cols) →
      statsList sq param dfs
        = .ok (dfs.map fun p => (p.1, mkStats sq (colData p.2 param))) := by
  intro dfs
  induction dfs with
  | nil => intro h; rfl
  | cons p t ih =>
    intro h
    have hp := calc_stats_ok sq (h p (List.mem_cons_self p t))
    have ht := ih fun x hx => h x (List.mem_cons_of_mem _ hx)
    simp [statsList, hp, ht, Bind.bind, Except.bind, pure, Except.pure]

theorem shapiroList_ok (sci : ScipyStats) (param : String) :
    ∀ {dfs : List (String × Df)}, (∀ p ∈ dfs, param ∈ p.2.cols) →
      shapiroList sci param dfs = .ok (shapiroEntriesSpec sci dfs param) := by
  intro dfs
  induction dfs with
  | nil => intro h; rfl
  | cons p t ih =>
    intro h
    have hcol := getCol_ok (h p (List.mem_cons_self p t))
    have ht := ih fun x hx => h x (List.mem_cons_of_mem _ hx)
    by_cases hb : 3 ≤ (dropna (rawCol p.2 param)).length <;>
      simp [shapiroList, hcol, ht, shapiroEntriesSpec, colData, hb,
        Bind.bind, Except.bind, pure, Except.pure]

theorem groupsList_ok (param : String) :
    ∀ {dfs : List (String × Df)}, (∀ p ∈ dfs, param ∈ p.2.cols) →
      groupsList param dfs = .ok (dfs.map fun p => toNums (colData p.2 param)) := by
  intro dfs
  induction dfs with
  | nil => intro h; rfl
  | cons p t ih =>
    intro h
    have hcol := getCol_ok (h p (List.mem_cons_self p t))
    have ht := ih fun x hx => h x (List.mem_cons_of_mem _ hx)
    simp [groupsList, hcol, ht, colData, Bind.bind, Except.bind, pure,
      Except.pure]

/-- C4: with exactly 2 sample tables, `compare_samples` computes both the
independent t-test and the two-sided Mann-Whitney U test, each recorded as
`statistic`, `p_value` and `significant = (p < 0.05)`; with more than 2
samples it computes one-way ANOVA and Kruskal-Wallis in the same shape.
The pair entries are explicit functions of the scipy pair tests alone —
the Shapiro-Wilk outcomes (`shapiroEntriesSpec`) never gate them. -/
theorem compare_samples_test_pairs :
    (∀ (sci : ScipyStats) (sq : ℚ → ℚ) (s1 s2 : String) (d1 d2 : Df)
        (param : String),
      param ∈ d1.cols → param ∈ d2.cols →
      compare_samples sci sq [(s1, d1), (s2, d2)] param = .ok
        { samples := [(s1, mkStats sq (colData d1 param)),
                      (s2, mkStats sq (colData d2 param))]
          statistical_tests :=
            shapiroEntriesSpec sci [(s1, d1), (s2, d2)] param ++
            [("t_test", TestEntry.test
               ⟨(sci.ttest_ind (toNums (colData d1 param))
                   (toNums (colData d2 param))).1,
                (sci.ttest_ind (toNums (colData d1 param))
                   (toNums (colData d2 param))).2,
                decide ((sci.ttest_ind (toNums (colData d1 param))
                   (toNums (colData d2 param))).2 < 1/20)⟩),
             ("mann_whitney", TestEntry.test
               ⟨(sci.mannwhitneyu (toNums (colData d1 param))
                   (toNums (colData d2 param))).1,
                (sci.mannwhitneyu (toNums (colData d1 param))
                   (toNums (colData d2 param))).2,
                decide ((sci.mannwhitneyu (toNums (colData d1 param))
                   (toNums (colData d2 param))).2 < 1/20)⟩)] }) ∧
    (∀ (sci : ScipyStats) (sq : ℚ → ℚ) (dfs : List (String × Df))
        (param : String),
      2 < dfs.length → (∀ p ∈ dfs, param ∈ p.2.cols) →
      compare_samples sci sq dfs param = .ok
        { samples := dfs.map fun p => (p.1, mkStats sq (colData p.2 param))
          statistical_tests := shapiroEntriesSpec sci dfs param ++
            [("anova", TestEntry.test
               ⟨(sci.f_oneway (dfs.map fun p => toNums (colData p.2 param))).1,
                (sci.f_oneway (dfs.map fun p => toNums (colData p.2 param))).2,
                decide ((sci.f_oneway
                  (dfs.map fun p => toNums (colData p.2 param))).2 < 1/20)⟩),
             ("kruskal_wallis", TestEntry.test
               ⟨(sci.kruskal (dfs.map fun p => toNums (colData p.2 param))).1,
                (sci.kruskal (dfs.map fun p => toNums (colData p.2 param))).2,
                decide ((sci.kruskal
                  (dfs.map fun p => toNums (colData p.2 param))).2 < 1/20)⟩)] }) := by
  constructor
  · intro sci sq s1 s2 d1 d2 param hp1 hp2
    have hall : ∀ p ∈ [(s1, d1), (s2, d2)], param ∈ p.2.cols := by
      intro p hp
      rcases List.mem_cons.mp hp with rfl | hp'
      · exact hp1
      · rcases List.mem_cons.mp hp' with rfl | h0
        · exact hp2
        · cases h0
    simp [compare_samples, statsList_ok sq param hall,
      shapiroList_ok sci param hall, getCol_ok hp1, getCol_ok hp2, colData,
      Bind.bind, Except.bind, pure, Except.pure]
  · intro sci sq dfs param hlen hcols
    obtain ⟨q1, t1', ht1⟩ : ∃ q t, dfs = q :: t := by
      cases dfs with
      | nil => simp at hlen
      | cons a t => exact ⟨a, t, rfl⟩
    subst ht1
    obtain ⟨q2, t2, ht2⟩ : ∃ q t, t1' = q :: t := by
      cases t1' with
      | nil => simp at hlen
      | cons a t => exact ⟨a, t, rfl⟩
    subst ht2
    obtain ⟨q3, t3, ht3⟩ : ∃ q t, t2 = q :: t := by
      cases t2 with
      | nil => simp at hlen
      | cons a t => exact ⟨a, t, rfl⟩
    subst ht3
    simp [compare_samples, statsList_ok sq param hcols,
      shapiroList_ok sci param hcols, groupsList_ok param hcols, colData,
      show 2 < (q1 :: q2 :: q3 :: t3).length from by simp,
      Bind.bind, Except.bind, pure, Except.pure]

/-- A concrete three-observation sample table over one numeric column. -/
def dfX : Df := ⟨["x"], [[("x", Val.num 1)], [("x", Val.num 2)], [("x", Val.num 3)]]⟩

/-- A concrete one-observation sample table (below the Shapiro minimum). -/
def dfY : Df := ⟨["x"], [[("x", Val.num 5)]]⟩

/-- A concrete two-observation sample table. -/
def dfZ : Df := ⟨["x"], [[("x", Val.num 7)], [("x", Val.num 8)]]⟩

/-- C4 witness: both branches evaluated on concrete samples. -/
theorem compare_samples_test_pairs_witness :
    compare_samples sciConst sqrtZero [("A", dfX), ("B", dfY)] ("x") = .ok
      { samples := [
          ("A", { count := 3, mean := some 2, median := some 2, std := some 0,
                  min := some 1, max := some 3, q25 := some (3/2),
                  q75 := some (5/2), iqr := some 1, cv := some 0 }),
          ("B", { count := 1, mean := some 5, median := some 5, std := none,
                  min := some 5, max := some 5, q25 := some 5, q75 := some 5,
                  iqr := some 0, cv := none })]
        statistical_tests := [
          ("A_shapiro", TestEntry.shapiro
            { statistic := 3, p_value := 1, is_normal := true }),
          ("t_test", TestEntry.test
            { statistic := 0, p_value := 1, significant := false }),
          ("mann_whitney", TestEntry.test
            { statistic := 0, p_value := 1, significant := false })] } ∧
    compare_samples sciConst sqrtZero [("A", dfX), ("B", dfY), ("C", dfZ)] ("x")
      = .ok
      { samples := [
          ("A", { count := 3, mean := some 2, median := some 2, std := some 0,
                  min := some 1, max := some 3, q25 := some (3/2),
                  q75 := some (5/2), iqr := some 1, cv := some 0 }),
          ("B", { count := 1, mean := some 5, median := some 5, std := none,
                  min := some 5, max := some 5, q25 := some 5, q75 := some 5,
                  iqr := some 0, cv := none }),
          ("C", { count := 2, mean := some (15/2), median := some (15/2),
                  std := some 0, min := some 7, max := some 8,
                  q25 := some (29/4), q75 := some (31/4), iqr := some (1/2),
                  cv := some 0 })]
        statistical_tests := [
          ("A_shapiro", TestEntry.shapiro
            { statistic := 3, p_value := 1, is_normal := true }),
          ("anova", TestEntry.test
            { statistic := 0, p_value := 1, significant := false }),
          ("kruskal_wallis", TestEntry.test
            { statistic := 0, p_value := 1, significant := false })] } := by
  have h1 := compare_samples_test_pairs.1 sciConst sqrtZero "A" "B" dfX dfY
    ("x") (by decide) (by decide)
  have h2 := compare_samples_test_pairs.2 sciConst sqrtZero
    [("A", dfX), ("B", dfY), ("C", dfZ)] ("x") (by decide) (by decide)
  constructor
  · rw [h1]
    with_unfolding_all decide
  · rw [h2]
    with_unfolding_all decide

theorem compare_samples_ok (sci : ScipyStats) (sq : ℚ → ℚ)
    (dfs : List (String × Df)) (param : String)
    (hcols : ∀ p ∈ dfs, param ∈ p.2.cols) :
    ∃ rest, compare_samples sci sq dfs param = .ok
      { samples := dfs.map fun p => (p.1, mkStats sq (colData p.2 param))
        statistical_tests := shapiroEntriesSpec sci dfs param ++ rest } ∧
      ∀ e ∈ rest, e.1 ∈
        (["t_test", "mann_whitney", "anova", "kruskal_wallis"] : List String) := by
  match dfs, hcols with
  | [], hcols =>
    refine ⟨[], ?_, by simp⟩
    simp [compare_samples, statsList_ok sq param hcols,
      shapiroList_ok sci param hcols, Bind.bind, Except.bind, pure, Except.pure]
  | [p1], hcols =>
    refine ⟨[], ?_, by simp⟩
    simp [compare_samples, statsList_ok sq param hcols,
      shapiroList_ok sci param hcols, Bind.bind, Except.bind, pure, Except.pure]
  | [p1, p2], hcols =>
    have h1 : param ∈ p1.2.cols := hcols p1 (by simp)
    have h2 : param ∈ p2.2.cols := hcols p2 (by simp)
    refine ⟨[("t_test", TestEntry.test
        ⟨(sci.ttest_ind (toNums (colData p1.2 param))
            (toNums (colData p2.2 param))).1,
         (sci.ttest_ind (toNums (colData p1.2 param))
            (toNums (colData p2.2 param))).2,
         decide ((sci.ttest_ind (toNums (colData p1.2 param))
            (toNums (colData p2.2 param))).2 < 1/20)⟩),
       ("mann_whitney", TestEntry.test
        ⟨(sci.mannwhitneyu (toNums (colData p1.2 param))
            (toNums (colData p2.2 param))).1,
         (sci.mannwhitneyu (toNums (colData p1.2 param))
            (toNums (colData p2.2 param))).2,
         decide ((sci.mannwhitneyu (toNums (colData p1.2 param))
            (toNums (colData p2.2 param))).2 < 1/20)⟩)], ?_, ?_⟩
    · simp [compare_samples, statsList_ok sq param hcols,
        shapiroList_ok sci param hcols, getCol_ok h1, getCol_ok h2, colData,
        Bind.bind, Except.bind, pure, Except.pure]
    · intro e he
      rcases List.mem_cons.mp he with rfl | he'
      · simp
      · rcases List.mem_cons.mp he' with rfl | h0
        · simp
        · cases h0
  | q1 :: q2 :: q3 :: t3, hcols =>
    refine ⟨[("anova", TestEntry.test
        ⟨(sci.f_oneway ((q1 :: q2 :: q3 :: t3).map
            fun p => toNums (colData p.2 param))).1,
         (sci.f_oneway ((q1 :: q2 :: q3 :: t3).map
            fun p => toNums (colData p.2 param))).2,
         decide ((sci.f_oneway ((q1 :: q2 :: q3 :: t3).map
            fun p => toNums (colData p.2 param))).2 < 1/20)⟩),
       ("kruskal_wallis", TestEntry.test
        ⟨(sci.kruskal ((q1 :: q2 :: q3 :: t3).map
            fun p => toNums (colData p.2 param))).1,
         (sci.kruskal ((q1 :: q2 :: q3 :: t3).map
            fun p => toNums (colData p.2 param))).2,
         decide ((sci.kruskal ((q1 :: q2 :: q3 :: t3).map
            fun p => toNums (colData p.2 param))).2 < 1/20)⟩)], ?_, ?_⟩
    · simp [compare_samples, statsList_ok sq param hcols,
        shapiroList_ok sci param hcols, groupsList_ok param hcols, colData,
        show 2 < (q1 :: q2 :: q3 :: t3).length from by simp,
        Bind.bind, Except.bind, pure, Except.pure]
    · intro e he
      rcases List.mem_cons.mp he with rfl | he'
      · simp
      · rcases List.mem_cons.mp he' with rfl | h0
        · simp
        · cases h0

/-- C7: in a cross-sample comparison the Shapiro-Wilk test is recorded
(keyed `{sample_id}_shapiro`, with `statistic`, `p_value` and
`is_normal = (p > 0.05)`) exactly for the samples with at least 3
observations after `dropna`; a sample with fewer than 3 observations
contributes no entry at all, and the comparison still completes, the
remaining entries being only the pairwise/multi-way tests. -/
theorem shapiro_min_three :
    ∀ (sci : ScipyStats) (sq : ℚ → ℚ) (dfs : List (String × Df))
      (param : String),
      (∀ p ∈ dfs, param ∈ p.2.cols) →
      ∃ comp, compare_samples sci sq dfs param = .ok comp ∧
        (∃ rest, comp.statistical_tests = shapiroEntriesSpec sci dfs param ++ rest ∧
          ∀ e ∈ rest, e.1 ∈
            (["t_test", "mann_whitney", "anova", "kruskal_wallis"] : List String)) ∧
        (∀ sid df, (sid, df) ∈ dfs → 3 ≤ (colData df param).length →
          (sid ++ "_shapiro", TestEntry.shapiro
            ⟨(sci.shapiro (toNums (colData df param))).1,
             (sci.shapiro (toNums (colData df param))).2,
             decide (1/20 < (sci.shapiro (toNums (colData df param))).2)⟩)
            ∈ comp.statistical_tests) ∧
        ((dfs.map Prod.fst).Nodup →
          ∀ sid df, (sid, df) ∈ dfs → (colData df param).length < 3 →
          ∀ e, (sid ++ "_shapiro", e) ∉ comp.statistical_tests) := by
  intro sci sq dfs param hcols
  obtain ⟨rest, hok, hkeys⟩ := compare_samples_ok sci sq dfs param hcols
  refine ⟨_, hok, ⟨rest, rfl, hkeys⟩, ?_, ?_⟩
  · intro sid df hmem h3
    apply List.mem_append_left
    apply List.mem_filterMap.mpr
    exact ⟨(sid, df), hmem, by simp [h3]⟩
  · intro hnd sid df hmem hlt e hin
    rcases List.mem_append.mp hin with hs | hr
    · obtain ⟨p, hp, hfp⟩ := List.mem_filterMap.mp hs
      by_cases hb : 3 ≤ (colData p.2 param).length
      · rw [if_pos hb] at hfp
        have hk : p.1 ++ "_shapiro" = sid ++ "_shapiro" :=
          congrArg Prod.fst (Option.some.inj hfp)
        have hps : p.1 = sid := append_shapiro_inj hk
        have hdf : p.2 = df := by
          apply nodup_keys_unique hnd _ hmem
          rw [← hps]
          exact hp
        rw [hdf] at hb
        omega
      · rw [if_neg hb] at hfp
        cases hfp
    · have := hkeys _ hr
      simp only [List.mem_cons, List.mem_singleton] at this
      rcases this with hk | hk | hk | hk | hk
      · exact append_shapiro_ne (by decide) hk
      · exact append_shapiro_ne (by decide) hk
      · exact append_shapiro_ne (by decide) hk
      · exact append_shapiro_ne (by decide) hk
      · cases hk

/-- C7 witness: sample A has 3 observations (entry present), sample B has
1 (entry absent), and the two-sample tests still complete. -/
theorem shapiro_min_three_witness :
    ∃ comp,
      compare_samples sciConst sqrtZero [("A", dfX), ("B", dfY)] ("x")
        = .ok comp ∧
      (∃ rest, comp.statistical_tests
          = shapiroEntriesSpec sciConst [("A", dfX), ("B", dfY)] ("x") ++ rest ∧
        ∀ e ∈ rest, e.1 ∈
          (["t_test", "mann_whitney", "anova", "kruskal_wallis"] : List String)) ∧
      (∀ sid df, (sid, df) ∈ [("A", dfX), ("B", dfY)] →
        3 ≤ (colData df ("x")).length →
        (sid ++ "_shapiro", TestEntry.shapiro
          ⟨(sciConst.shapiro (toNums (colData df ("x")))).1,
           (sciConst.shapiro (toNums (colData df ("x")))).2,
           decide (1/20 < (sciConst.shapiro (toNums (colData df ("x")))).2)⟩)
          ∈ comp.statistical_tests) ∧
      ((([("A", dfX), ("B", dfY)] : List (String × Df)).map Prod.fst).Nodup →
        ∀ sid df, (sid, df) ∈ [("A", dfX), ("B", dfY)] →
        (colData df ("x")).length < 3 →
        ∀ e, (sid ++ "_shapiro", e) ∉ comp.statistical_tests) :=
  shapiro_min_three sciConst sqrtZero [("A", dfX), ("B", dfY)] ("x")
    (by decide)
